import Mathlib

/-!
Shallow embedding of the weather-app component (two provider variants:
`WeatherApi` embeds `src/src/App.tsx`, `RapidApi` embeds the header-auth
variant).  Numbers are modelled as rationals, JS string `includes` as a
character-list substring test, and the stateful fetch routine as an explicit
trace of setter events folded over an application state.
-/

/-- One element of the provider `weather` array (interface `Weather`). -/
structure Weather where
  id : Int
  main : String
  description : String
  icon : String
deriving DecidableEq

/-- The `main` block of the normalized data (interface `Main`). -/
structure MainBlock where
  temp : ℚ
  feels_like : ℚ
  temp_min : ℚ
  temp_max : ℚ
  pressure : ℚ
  humidity : ℚ
deriving DecidableEq

/-- The normalized weather data (interface `WeatherData`). -/
structure WeatherData where
  name : String
  weather : List Weather
  main : MainBlock
deriving DecidableEq

/-- A JS value as far as `setBgImage` can observe one: a string, a truthy
non-string value inherited from `Object.prototype` (a function or object,
named by its property key), or `undefined`. -/
inductive JsValue where
  | str (s : String)
  | inherited (name : String)
  | undef
deriving DecidableEq

/-- The component state: the five `useState` hooks of `App`. -/
structure AppState where
  data : Option WeatherData
  loading : Bool
  city : String
  bgImage : JsValue
  error : Option String
deriving DecidableEq

/-- A single setter call (`setData`, `setLoading`, `setBgImage`, `setError`). -/
inductive Ev where
  | setLoading (b : Bool)
  | setError (e : Option String)
  | setData (d : Option WeatherData)
  | setBg (u : JsValue)
deriving DecidableEq

/-- How one run of the `try` block of `fetchData` ends: it completes
(`ok`), it throws before the data assignment (`throwEarly`: network error,
non-2xx, a body whose processing fails before `setData`), or it throws
after the data assignment stored the value `d` but before the `try` block
finished (`throwLate`: e.g. a body whose remaining success-path processing
fails only after `setData` ran). -/
inductive TryOutcome (α : Type) where
  | ok (p : α)
  | throwEarly
  | throwLate (d : WeatherData)
deriving DecidableEq

/-- How many settlement events one `try`/`catch` run emits: one on a clean
success or an early throw, two when the throw follows the data
assignment. -/
def settleCount {α : Type} : TryOutcome α → Nat
  | TryOutcome.ok _ => 1
  | TryOutcome.throwEarly => 1
  | TryOutcome.throwLate _ => 2

/-- Apply one setter event to the state. -/
def applyEv (s : AppState) : Ev → AppState
  | Ev.setLoading b => { s with loading := b }
  | Ev.setError e => { s with error := e }
  | Ev.setData d => { s with data := d }
  | Ev.setBg u => { s with bgImage := u }

/-- Run a trace of setter events from a state. -/
def runTrace (s : AppState) (t : List Ev) : AppState :=
  t.foldl applyEv s

/-- The fixed user-facing failure message of both variants. -/
def errMsg : String := "City not found. Please try again."

/-- `p` is a prefix of `s` (character lists). -/
def leadMatch : List Char → List Char → Bool
  | [], _ => true
  | _ :: _, [] => false
  | p :: ps, c :: cs => p == c && leadMatch ps cs

/-- `p` occurs as a contiguous substring of `s` (character lists). -/
def subMatch (p : List Char) : List Char → Bool
  | [] => leadMatch p []
  | c :: cs => leadMatch p (c :: cs) || subMatch p cs

/-- JS `s.includes(pat)`: case-sensitive substring containment. -/
def includes (s pat : String) : Bool := subMatch pat.data s.data

/-- Event trace of the common start of `fetchData`:
`setLoading(true); setError(null)`. -/
def startEvents : List Ev := [Ev.setLoading true, Ev.setError none]

/-- State after the start phase of `fetchData` (both variants). -/
def fetchStart (s : AppState) : AppState := runTrace s startEvents

/-- Loading-flag events. -/
def isLoadingEv : Ev → Bool
  | Ev.setLoading _ => true
  | _ => false

/-- Settlement events: a non-null data assignment or a non-null error
assignment. -/
def isSettlementEv : Ev → Bool
  | Ev.setData (some _) => true
  | Ev.setError (some _) => true
  | _ => false

namespace WeatherApi

/-- The `condition` object of a weatherapi.com response. -/
structure Condition where
  code : Int
  text : String
  icon : String
deriving DecidableEq

/-- The `current` object of a weatherapi.com response. -/
structure Current where
  temp_c : ℚ
  feelslike_c : ℚ
  pressure_mb : ℚ
  humidity : ℚ
  condition : Condition
deriving DecidableEq

/-- The `location` object of a weatherapi.com response. -/
structure Location where
  name : String
deriving DecidableEq

/-- A successful weatherapi.com response body. -/
structure ApiPayload where
  location : Location
  current : Current
deriving DecidableEq

/-- The default background URL (`backgroundImages.default`). -/
def defaultUrl : String :=
  "https://images.unsplash.com/photo-1504608524841-42fe6f032b5b"

/-- The `backgroundImages` object of `App.tsx`, as the ordered entry list
that `Object.entries` yields (insertion order). -/
def backgroundImages : List (String × String) :=
  [("Clear", "https://images.unsplash.com/photo-1601134467661-3a775e007848"),
   ("Clouds", "https://images.unsplash.com/photo-1483977399921-6cf94f6fdc3a"),
   ("Rain", "https://images.unsplash.com/photo-1438449805895-5918d2267f19"),
   ("Snow", "https://images.unsplash.com/photo-1491002052546-bf38f186af56"),
   ("Moderate snow showers", "https://example.com/moderate-snow-image.jpg"),
   ("Heavy snow showers", "https://example.com/heavy-snow-image.jpg"),
   ("Thunderstorm", "https://images.unsplash.com/photo-1530533718754-001d3088360a"),
   ("default", defaultUrl)]

/-- The `for (const [condition, url] of Object.entries(backgroundImages))`
loop: first entry whose key is a substring of some description. -/
def bgLoop (descs : List String) : List (String × String) → Option String
  | [] => none
  | e :: rest =>
      if descs.any (fun d => includes d e.1) then some e.2 else bgLoop descs rest

/-- `updateBackground` of `App.tsx`: map the weather array to its
descriptions, scan the table in order, fall back to the default URL. -/
def updateBackground (weatherArr : List Weather) : String :=
  match bgLoop (weatherArr.map (fun w => w.description)) backgroundImages with
  | some url => url
  | none => defaultUrl

/-- Modelled from the spec: the background selector as the spec words it —
the first entry (in insertion order) whose keyword is a substring of any
condition description, else the default entry's URL. -/
def updateBackgroundSpec (weatherArr : List Weather) : String :=
  ((backgroundImages.find?
      (fun e => (weatherArr.map (fun w => w.description)).any
        (fun d => includes d e.1))).map Prod.snd).getD defaultUrl

/-- The `formattedData` construction of `fetchData` (lines 74-92). -/
def formatData (w : ApiPayload) : WeatherData :=
  { name := w.location.name
    weather := [{ id := w.current.condition.code
                  main := w.current.condition.text
                  description := w.current.condition.text
                  icon := "https:" ++ w.current.condition.icon }]
    main := { temp := w.current.temp_c
              feels_like := w.current.feelslike_c
              temp_min := w.current.temp_c
              temp_max := w.current.temp_c
              pressure := w.current.pressure_mb
              humidity := w.current.humidity } }

/-- Setter events of the try/catch body.  `ok p` is a fetch whose try
block completes with payload `p`.  `throwEarly` is a throw before
`setData` (network error, non-2xx, a body that fails while building
`formattedData`).  `throwLate d` is a throw after `setData` stored `d`
(ill-typed data — e.g. a non-string `condition.text` — passes the
construction, `setData` runs, then `desc.includes` throws inside
`updateBackground` before any `setBgImage` call); the catch block then
adds the error and clears the data. -/
def settleEvents : TryOutcome ApiPayload → List Ev
  | TryOutcome.ok p =>
      [Ev.setData (some (formatData p)),
       Ev.setBg (JsValue.str (updateBackground (formatData p).weather))]
  | TryOutcome.throwEarly => [Ev.setError (some errMsg), Ev.setData none]
  | TryOutcome.throwLate d =>
      [Ev.setData (some d), Ev.setError (some errMsg), Ev.setData none]

/-- Full setter trace of one `fetchData` call; the trailing
`setLoading(false)` is the `finally` block. -/
def fetchDataTrace (o : TryOutcome ApiPayload) : List Ev :=
  startEvents ++ settleEvents o ++ [Ev.setLoading false]

/-- `fetchData` as a state transformer: fold its setter trace. -/
def fetchData (o : TryOutcome ApiPayload) (s : AppState) : AppState :=
  runTrace s (fetchDataTrace o)

theorem bgLoop_eq_find (descs : List String) (l : List (String × String)) :
    bgLoop descs l =
      (l.find? (fun e => descs.any (fun d => includes d e.1))).map Prod.snd := by
  induction l with
  | nil => rfl
  | cons e rest ih =>
      by_cases h : descs.any (fun d => includes d e.1) = true
      · simp [bgLoop, List.find?_cons, h]
      · simp [bgLoop, List.find?_cons, h, ih]

end WeatherApi

namespace RapidApi

/-- The default background URL of the header-auth variant. -/
def defaultUrl : String :=
  "https://images.unsplash.com/photo-1504608524841-42fe6f032b5b"

/-- The `backgroundImages` object of the header-auth variant (no
snow-showers keys), in insertion order. -/
def backgroundImages : List (String × String) :=
  [("Clear", "https://images.unsplash.com/photo-1601134467661-3a775e007848"),
   ("Clouds", "https://images.unsplash.com/photo-1483977399921-6cf94f6fdc3a"),
   ("Rain", "https://images.unsplash.com/photo-1438449805895-5918d2267f19"),
   ("Snow", "https://images.unsplash.com/photo-1491002052546-bf38f186af56"),
   ("Thunderstorm", "https://images.unsplash.com/photo-1530533718754-001d3088360a"),
   ("default", defaultUrl)]

/-- The property names of `Object.prototype` in a web runtime (the seven
required by ECMA-262 plus the Annex B legacy accessors): a plain object
literal inherits all of them, and each holds a truthy non-string value
(a function, or for `__proto__` an object). -/
def objectProtoKeys : List String :=
  ["constructor", "hasOwnProperty", "isPrototypeOf", "propertyIsEnumerable",
   "toLocaleString", "toString", "valueOf",
   "__defineGetter__", "__defineSetter__", "__lookupGetter__",
   "__lookupSetter__", "__proto__"]

/-- JS bracket lookup `backgroundImages[k]`: the object's own keys first,
then the prototype chain (`Object.prototype`), else `undefined`. -/
def bracketLookup (k : String) : JsValue :=
  match List.lookup k backgroundImages with
  | some v => JsValue.str v
  | none =>
      if objectProtoKeys.contains k then JsValue.inherited k else JsValue.undef

/-- JS `a || b`: `b` when `a` is falsy (`undefined` or the empty string),
else `a`; an inherited function or object is truthy and survives. -/
def jsOr (v : JsValue) (d : String) : JsValue :=
  match v with
  | JsValue.str s => if s = "" then JsValue.str d else JsValue.str s
  | JsValue.inherited n => JsValue.inherited n
  | JsValue.undef => JsValue.str d

/-- `updateBackground` of the header-auth variant: bracket lookup
`backgroundImages[weather]` (an undefined argument is stringified to the
property key "undefined"), `|| backgroundImages.default` fallback; the
result is stored by `setBgImage` as-is. -/
def updateBackground (weather : Option String) : JsValue :=
  jsOr
    (bracketLookup (match weather with | some w => w | none => "undefined"))
    defaultUrl

/-- Setter events of the try/catch body of the header-auth `fetchData`.
`ok d` is a fetch whose try block completes with `response.data = d`.
`throwEarly` is a throw before `setData`.  `throwLate d` is a throw after
`setData` stored `d` (a 2xx body without a `weather` array runs
`setData(response.data)` and then throws at `weather[0]`, before
`updateBackground` and `setBgImage` run). -/
def settleEvents : TryOutcome WeatherData → List Ev
  | TryOutcome.ok d =>
      [Ev.setData (some d),
       Ev.setBg (updateBackground (d.weather.head?.map (fun w => w.main)))]
  | TryOutcome.throwEarly => [Ev.setError (some errMsg), Ev.setData none]
  | TryOutcome.throwLate d =>
      [Ev.setData (some d), Ev.setError (some errMsg), Ev.setData none]

/-- Full setter trace of one header-auth `fetchData` call. -/
def fetchDataTrace (o : TryOutcome WeatherData) : List Ev :=
  startEvents ++ settleEvents o ++ [Ev.setLoading false]

/-- The header-auth `fetchData` as a state transformer. -/
def fetchData (o : TryOutcome WeatherData) (s : AppState) : AppState :=
  runTrace s (fetchDataTrace o)

end RapidApi

/-- JS `Math.round`: round half toward positive infinity. -/
def mathRound (q : ℚ) : ℤ := Rat.floor (q + 1/2)

/-- The rendered temperature text `` `${Math.round(temp)}°C` `` of the
data display. -/
def renderTemp (q : ℚ) : String := toString (mathRound q) ++ "°C"

/-- A synthetic successful weatherapi.com payload with `temp_c = 21.6`. -/
def samplePayload : WeatherApi.ApiPayload :=
  { location := { name := "Skardu" }
    current := { temp_c := 21.6
                 feelslike_c := 20
                 pressure_mb := 1013
                 humidity := 40
                 condition := { code := 1000
                                text := "Sunny"
                                icon := "//cdn.weatherapi.com/icon.png" } } }

/-- A stand-in for the ill-typed provider data that passes the data
assignment and then makes the remaining success-path processing throw. -/
def junkData : WeatherData :=
  { name := "x"
    weather := []
    main := { temp := 0, feels_like := 0, temp_min := 0, temp_max := 0,
              pressure := 0, humidity := 0 } }

/-- C1 counterexample: in the `backgroundImages` table the generic key
"Snow" appears strictly earlier in insertion order than the more-specific
key "Heavy snow showers", and for condition text "Heavy snow showers" the
selected URL is not the entry of "Snow" — the key among them that appears
first in mapping order — refuting both the claimed specific-before-generic
order and the claimed first-in-order result. -/
theorem snow_key_order_counterexample :
    (WeatherApi.backgroundImages.map Prod.fst).indexOf "Snow" <
      (WeatherApi.backgroundImages.map Prod.fst).indexOf "Heavy snow showers" ∧
    (WeatherApi.updateBackground
        [⟨1282, "Heavy snow showers", "Heavy snow showers", "i"⟩] ==
      "https://images.unsplash.com/photo-1491002052546-bf38f186af56") = false := by
  decide

/-- C1 (amended): the generic key "Snow" precedes both specific
snow-showers keys in insertion order; nevertheless, because the substring
match is case-sensitive, "Snow" does not match the condition text
"Heavy snow showers", and the selected URL equals the
"Heavy snow showers" entry. -/
theorem heavy_snow_selected_despite_generic_first :
    (WeatherApi.backgroundImages.map Prod.fst).indexOf "Snow" <
      (WeatherApi.backgroundImages.map Prod.fst).indexOf "Moderate snow showers" ∧
    (WeatherApi.backgroundImages.map Prod.fst).indexOf "Snow" <
      (WeatherApi.backgroundImages.map Prod.fst).indexOf "Heavy snow showers" ∧
    includes "Heavy snow showers" "Snow" = false ∧
    WeatherApi.updateBackground
        [⟨1282, "Heavy snow showers", "Heavy snow showers", "i"⟩] =
      "https://example.com/heavy-snow-image.jpg" := by
  decide

/-- C2: every failed fetch, in either provider variant and from any prior
state — whether the throw precedes or follows the data assignment —
leaves the error equal to the fixed string
"City not found. Please try again." and the displayed data absent. -/
theorem failed_fetch_fixed_error_and_clears_data (s : AppState) :
    (WeatherApi.fetchData TryOutcome.throwEarly s).error = some errMsg ∧
    (WeatherApi.fetchData TryOutcome.throwEarly s).data = none ∧
    (∀ d, (WeatherApi.fetchData (TryOutcome.throwLate d) s).error = some errMsg ∧
        (WeatherApi.fetchData (TryOutcome.throwLate d) s).data = none) ∧
    (RapidApi.fetchData TryOutcome.throwEarly s).error = some errMsg ∧
    (RapidApi.fetchData TryOutcome.throwEarly s).data = none ∧
    (∀ d, (RapidApi.fetchData (TryOutcome.throwLate d) s).error = some errMsg ∧
        (RapidApi.fetchData (TryOutcome.throwLate d) s).data = none) ∧
    errMsg = "City not found. Please try again." :=
  ⟨rfl, rfl, fun _ => ⟨rfl, rfl⟩, rfl, rfl, fun _ => ⟨rfl, rfl⟩, rfl⟩

/-- C3 counterexample: when the try block throws after the data assignment
(a 2xx body whose remaining success-path processing fails only after
`setData` ran), the setter trace of one `fetchData` call contains two
settlement events — the non-null data assignment and then the error —
in either variant, refuting "sets exactly one of success (data) or
error". -/
theorem fetch_two_settlements_counterexample :
    ((WeatherApi.fetchDataTrace (TryOutcome.throwLate junkData)).filter
        isSettlementEv).length = 2 ∧
    ((RapidApi.fetchDataTrace (TryOutcome.throwLate junkData)).filter
        isSettlementEv).length = 2 := by
  decide

/-- C3 (amended): for both variants and every outcome, the setter trace of
one `fetchData` call starts by setting the loading flag, ends by clearing
it (unconditionally, on every settlement path, including when the
success-path processing itself throws), and contains no other loading
events; in between it performs exactly one settlement (a non-null data or
non-null error assignment) when the fetch succeeds or throws before the
data assignment, but two settlements — the data assignment, then the
error — when the throw follows the data assignment. -/
theorem fetch_loading_settlement_protocol :
    (∀ o : TryOutcome WeatherApi.ApiPayload, ∃ mid : List Ev,
        WeatherApi.fetchDataTrace o =
          Ev.setLoading true :: (mid ++ [Ev.setLoading false]) ∧
        mid.filter isLoadingEv = [] ∧
        (mid.filter isSettlementEv).length = settleCount o) ∧
    (∀ o : TryOutcome WeatherData, ∃ mid : List Ev,
        RapidApi.fetchDataTrace o =
          Ev.setLoading true :: (mid ++ [Ev.setLoading false]) ∧
        mid.filter isLoadingEv = [] ∧
        (mid.filter isSettlementEv).length = settleCount o) := by
  constructor
  · intro o
    cases o with
    | ok p =>
        exact ⟨[Ev.setError none,
                Ev.setData (some (WeatherApi.formatData p)),
                Ev.setBg (JsValue.str (WeatherApi.updateBackground
                  (WeatherApi.formatData p).weather))],
               rfl, rfl, rfl⟩
    | throwEarly =>
        exact ⟨[Ev.setError none, Ev.setError (some errMsg), Ev.setData none],
               rfl, rfl, rfl⟩
    | throwLate d =>
        exact ⟨[Ev.setError none, Ev.setData (some d),
                Ev.setError (some errMsg), Ev.setData none],
               rfl, rfl, rfl⟩
  · intro o
    cases o with
    | ok d =>
        exact ⟨[Ev.setError none,
                Ev.setData (some d),
                Ev.setBg (RapidApi.updateBackground
                  (d.weather.head?.map (fun w : Weather => w.main)))],
               rfl, rfl, rfl⟩
    | throwEarly =>
        exact ⟨[Ev.setError none, Ev.setError (some errMsg), Ev.setData none],
               rfl, rfl, rfl⟩
    | throwLate d =>
        exact ⟨[Ev.setError none, Ev.setData (some d),
                Ev.setError (some errMsg), Ev.setData none],
               rfl, rfl, rfl⟩

/-- C4: the background selector equals the spec's first-match-in-insertion-
order description on every weather list; "Tornado" matches nothing and
yields the default URL; "Clear" yields the "Clear" entry's URL. -/
theorem background_first_match_and_default :
    (∀ arr : List Weather,
        WeatherApi.updateBackground arr = WeatherApi.updateBackgroundSpec arr) ∧
    WeatherApi.updateBackground [⟨0, "Tornado", "Tornado", ""⟩] =
      WeatherApi.defaultUrl ∧
    WeatherApi.updateBackground [⟨0, "Clear", "Clear", ""⟩] =
      "https://images.unsplash.com/photo-1601134467661-3a775e007848" := by
  refine ⟨fun arr => ?_, by decide, by decide⟩
  unfold WeatherApi.updateBackground WeatherApi.updateBackgroundSpec
  rw [WeatherApi.bgLoop_eq_find]
  cases WeatherApi.backgroundImages.find?
      (fun e => (arr.map (fun w => w.description)).any (fun d => includes d e.1)) with
  | none => rfl
  | some e => rfl

/-- C5: the snapshot stores the provider's temperatures exactly (no
rounding at the data layer), and rounding happens only at render: the
synthetic payload with `temp_c = 21.6` stores 21.6 and renders "22°C". -/
theorem temps_stored_exact_rounded_at_render :
    (∀ p : WeatherApi.ApiPayload,
        (WeatherApi.formatData p).main.temp = p.current.temp_c ∧
        (WeatherApi.formatData p).main.feels_like = p.current.feelslike_c) ∧
    (WeatherApi.formatData samplePayload).main.temp = 21.6 ∧
    renderTemp (WeatherApi.formatData samplePayload).main.temp = "22°C" := by
  refine ⟨fun p => ⟨rfl, rfl⟩, rfl, ?_⟩
  have h : mathRound (WeatherApi.formatData samplePayload).main.temp = 22 := by
    show mathRound (21.6 : ℚ) = 22
    norm_num [mathRound, Rat.floor]
  rw [renderTemp, h]
  rfl

/-- C6: after any single settled fetch, in either variant and on every
settlement path (success, early throw, throw after the data assignment),
at most one of data/error is present: success leaves the data set and the
error null, every failure leaves the error set and the data null. -/
theorem settled_state_mutual_exclusion (s : AppState) :
    (∀ p, (WeatherApi.fetchData (TryOutcome.ok p) s).data =
        some (WeatherApi.formatData p) ∧
        (WeatherApi.fetchData (TryOutcome.ok p) s).error = none) ∧
    (WeatherApi.fetchData TryOutcome.throwEarly s).data = none ∧
    (WeatherApi.fetchData TryOutcome.throwEarly s).error = some errMsg ∧
    (∀ d, (WeatherApi.fetchData (TryOutcome.throwLate d) s).data = none ∧
        (WeatherApi.fetchData (TryOutcome.throwLate d) s).error = some errMsg) ∧
    (∀ o, ((WeatherApi.fetchData o s).data.isSome &&
        (WeatherApi.fetchData o s).error.isSome) = false) ∧
    (∀ d, (RapidApi.fetchData (TryOutcome.ok d) s).data = some d ∧
        (RapidApi.fetchData (TryOutcome.ok d) s).error = none) ∧
    (RapidApi.fetchData TryOutcome.throwEarly s).data = none ∧
    (RapidApi.fetchData TryOutcome.throwEarly s).error = some errMsg ∧
    (∀ d, (RapidApi.fetchData (TryOutcome.throwLate d) s).data = none ∧
        (RapidApi.fetchData (TryOutcome.throwLate d) s).error = some errMsg) ∧
    (∀ o, ((RapidApi.fetchData o s).data.isSome &&
        (RapidApi.fetchData o s).error.isSome) = false) := by
  refine ⟨fun p => ⟨rfl, rfl⟩, rfl, rfl, fun d => ⟨rfl, rfl⟩, fun o => ?_,
         fun d => ⟨rfl, rfl⟩, rfl, rfl, fun d => ⟨rfl, rfl⟩, fun o => ?_⟩
  · cases o <;> rfl
  · cases o <;> rfl

/-- C7: in the weatherapi.com variant every successful fetch substitutes
the current temperature for both min and max, so
`temp_min = temp_max = temp = temp_c` in every snapshot it produces. -/
theorem weatherapi_min_max_substitute_current (p : WeatherApi.ApiPayload) :
    (WeatherApi.formatData p).main.temp_min = p.current.temp_c ∧
    (WeatherApi.formatData p).main.temp_max = p.current.temp_c ∧
    (WeatherApi.formatData p).main.temp_min = (WeatherApi.formatData p).main.temp ∧
    (WeatherApi.formatData p).main.temp_max = (WeatherApi.formatData p).main.temp :=
  ⟨rfl, rfl, rfl, rfl⟩

/-- C8: the substring match is case-sensitive: "clear sky" contains the
lowercase keyword "clear" but not "Clear", so no entry matches and the
selector returns the default entry's URL. -/
theorem background_match_case_sensitive :
    includes "clear sky" "clear" = true ∧
    includes "clear sky" "Clear" = false ∧
    WeatherApi.updateBackground [⟨800, "clear", "clear sky", ""⟩] =
      WeatherApi.defaultUrl := by
  decide

/-- C9: the start of a fetch sets the loading flag and clears only the
error: data, background image and query string are unchanged until the
fetch settles (the trace decomposes as start events followed by settlement
events); a failed fetch never touches the background image, and no fetch
touches the query string. -/
theorem fetch_start_clears_only_error (s : AppState) :
    (fetchStart s).data = s.data ∧
    (fetchStart s).bgImage = s.bgImage ∧
    (fetchStart s).city = s.city ∧
    (fetchStart s).error = none ∧
    (fetchStart s).loading = true ∧
    (∀ o, WeatherApi.fetchDataTrace o =
        startEvents ++ (WeatherApi.settleEvents o ++ [Ev.setLoading false])) ∧
    (∀ o, RapidApi.fetchDataTrace o =
        startEvents ++ (RapidApi.settleEvents o ++ [Ev.setLoading false])) ∧
    (WeatherApi.fetchData TryOutcome.throwEarly s).bgImage = s.bgImage ∧
    (∀ d, (WeatherApi.fetchData (TryOutcome.throwLate d) s).bgImage = s.bgImage) ∧
    (RapidApi.fetchData TryOutcome.throwEarly s).bgImage = s.bgImage ∧
    (∀ d, (RapidApi.fetchData (TryOutcome.throwLate d) s).bgImage = s.bgImage) ∧
    (∀ o, (WeatherApi.fetchData o s).city = s.city) ∧
    (∀ o, (RapidApi.fetchData o s).city = s.city) := by
  refine ⟨rfl, rfl, rfl, rfl, rfl, fun o => rfl, fun o => rfl, rfl,
         fun d => rfl, rfl, fun d => rfl, fun o => ?_, fun o => ?_⟩
  · cases o <;> rfl
  · cases o <;> rfl

/-- C10 counterexample: "toString" is not a key of the mapping, yet the
bracket lookup finds the truthy function inherited from
`Object.prototype`, so `||` does not fall through and the selected value
is not the default entry's URL, refuting "the main value is not a key of
the mapping → the default entry's URL is selected". -/
theorem rapid_prototype_lookup_counterexample :
    List.lookup "toString" RapidApi.backgroundImages = none ∧
    (RapidApi.updateBackground (some "toString") ==
      JsValue.str RapidApi.defaultUrl) = false := by
  decide

/-- C10 (amended): the header-auth variant chooses the background by
bracket key lookup on the first weather element's `main` field, and the
lookup is total (no runtime error): an empty weather array, or a `main`
value that is neither an own key of the mapping nor a property name of
`Object.prototype`, selects the default entry's URL; every own key of the
mapping selects exactly its own entry's URL; but a `main` value naming an
`Object.prototype` property (e.g. "toString") yields the truthy inherited
value, so the default entry is not selected and a non-URL value is
stored. -/
theorem rapid_exact_lookup_total :
    (∀ d : WeatherData, RapidApi.settleEvents (TryOutcome.ok d) =
        [Ev.setData (some d),
         Ev.setBg (RapidApi.updateBackground
           (d.weather.head?.map (fun w => w.main)))]) ∧
    RapidApi.updateBackground (([] : List Weather).head?.map (fun w => w.main)) =
      JsValue.str RapidApi.defaultUrl ∧
    (RapidApi.backgroundImages.all
        (fun e => RapidApi.updateBackground (some e.1) == JsValue.str e.2)) = true ∧
    (RapidApi.objectProtoKeys.all
        (fun k => RapidApi.updateBackground (some k) == JsValue.inherited k)) = true ∧
    (∀ k, List.lookup k RapidApi.backgroundImages = none →
        RapidApi.objectProtoKeys.contains k = false →
        RapidApi.updateBackground (some k) = JsValue.str RapidApi.defaultUrl) := by
  refine ⟨fun d => rfl, rfl, by decide, by decide, ?_⟩
  intro k h1 h2
  have h3 : k ∉ RapidApi.objectProtoKeys := by simpa using h2
  simp [RapidApi.updateBackground, RapidApi.bracketLookup, RapidApi.jsOr, h1, h3]

/-- C10 witness: the key "Tornado" is neither an own key of the mapping
nor an `Object.prototype` property name, and the selector returns the
default entry's URL. -/
theorem rapid_exact_lookup_total_witness :
    RapidApi.updateBackground (some "Tornado") = JsValue.str RapidApi.defaultUrl :=
  rapid_exact_lookup_total.2.2.2.2 "Tornado" (by decide) (by decide)

